import Mathlib

/-!
Verification of the move-shot screenshot/OCR/PDF pipeline.

Shallow embedding of the repository's JavaScript sources:
* `ocr.js`    — filename listing/sorting (`numericalSort`, `getScreenshotFiles`),
               OCR boundary (`performOcrOnImage`), markdown assembly
               (`generateMarkdownFile`).
* `pdf.js`    — two variants of `generateSearchablePdf` (batch save and
               incremental save).
* `move-shot.js` — startup configuration validation.

JavaScript strings are modelled as `List Char`; the filesystem, the Ollama
service and pdf-lib are modelled as explicit environments (`Except`-valued
results standing for success/thrown-exception of each external call).
-/

set_option maxRecDepth 4000

deriving instance DecidableEq for Except

/-- JavaScript strings, modelled as lists of characters. -/
abbrev Str := List Char

/-- `pre` is an initial segment of `s` (model of `String.prototype.startsWith`
and of an anchored regex match at the start of the string). -/
def strStarts (pre s : Str) : Bool :=
  match pre, s with
  | [], _ => true
  | _ :: _, [] => false
  | a :: as, b :: bs => a == b && strStarts as bs

/-- `suf` is a final segment of `s` (model of `String.prototype.endsWith`). -/
def strEnds (suf s : Str) : Bool :=
  strStarts suf.reverse s.reverse

/-- Numeric value of a string of decimal digits, as `parseInt(…, 10)` computes
it (most significant digit first). -/
def digitsVal (ds : Str) : Nat :=
  ds.foldl (fun n c => 10 * n + (c.toNat - 48)) 0

/-- `ocr.js` line 40: `parseInt(a.match(/^(\d+)/)?.[1] || '0', 10)` — the value
of the maximal run of leading decimal digits, `0` when there is none. -/
def leadingNum (s : Str) : Nat :=
  digitsVal (s.takeWhile Char.isDigit)

/-- The ordering relation realised by `numericalSort` (`ocr.js` lines 39-43):
the comparator returns `numA - numB`, i.e. it orders by `leadingNum`. -/
def leRel (a b : Str) : Prop :=
  leadingNum a ≤ leadingNum b

instance : DecidableRel leRel := fun x y => Nat.decLe (leadingNum x) (leadingNum y)

instance : IsTotal Str leRel := ⟨fun a b => Nat.le_total (leadingNum a) (leadingNum b)⟩

instance : IsTrans Str leRel := ⟨fun _ _ _ h h' => Nat.le_trans h h'⟩

/-- `ocr.js` line 56: `file.toLowerCase().endsWith('.png')`. -/
def isPng (file : Str) : Bool :=
  strEnds ".png".data (file.map Char.toLower)

/-- Outcome of `fs.readdir`: either the directory listing, or the thrown
error's `code` (`ENOENT` when the directory is absent, any other code
otherwise). -/
inductive FsError where
  | enoent
  | other
deriving DecidableEq

/-- Errors thrown by `getScreenshotFiles` (`ocr.js` lines 52-72):
`notFound` for the `ENOENT` translation, `empty` for the "No .png files
found" error (thrown inside the `try`, re-thrown unchanged by the `catch`),
`reraised` for any other filesystem error re-thrown as-is. -/
inductive ListErr where
  | notFound
  | empty
  | reraised
deriving DecidableEq

/-- `ocr.js` lines 52-72: read the directory, keep `.png` files
(case-insensitive), sort them with `numericalSort` (a stable sort by
`leadingNum`, as ECMAScript `Array.prototype.sort` is stable), fail when the
directory is missing (`NotFound`) or when no `.png` file exists (`Empty`). -/
def getScreenshotFiles (readdir : Except FsError (List Str)) :
    Except ListErr (List Str) :=
  match readdir with
  | .error .enoent => .error .notFound
  | .error .other => .error .reraised
  | .ok allFiles =>
    let screenshotFiles := List.insertionSort leRel (allFiles.filter isPng)
    if screenshotFiles.length = 0 then .error .empty
    else .ok screenshotFiles

example :
    getScreenshotFiles (.ok ["2.png".data, "10.png".data, "1.png".data]) =
      .ok ["1.png".data, "2.png".data, "10.png".data] := by decide

/-! ## OCR boundary (`performOcrOnImage`, `ocr.js` lines 80-114) -/

/-- Remove the longest run of characters satisfying `p` from the end of the
list (used for `trim` and for the `\s*$` part of the trailing-fence regex). -/
def dropWhileEnd (p : Char → Bool) (s : Str) : Str :=
  (s.reverse.dropWhile p).reverse

/-- Drop the last `n` characters. -/
def dropRightN (n : Nat) (s : Str) : Str :=
  s.take (s.length - n)

/-- `String.prototype.trim()`: whitespace removed from both ends. -/
def jsTrim (s : Str) : Str :=
  dropWhileEnd Char.isWhitespace (s.dropWhile Char.isWhitespace)

/-- `ocr.js` line 102, first replace: `.replace(/^```(markdown)?\s*/, '')` —
when the string starts with three backticks, drop them, drop a following
literal `markdown` if present, then drop all following whitespace (the greedy
`\s*`); otherwise the regex does not match and the string is unchanged. -/
def stripLeadingFence (s : Str) : Str :=
  if strStarts "```".data s then
    let r := s.drop 3
    let r := if strStarts "markdown".data r then r.drop 8 else r
    r.dropWhile Char.isWhitespace
  else s

/-- `ocr.js` line 102, second replace: `.replace(/```\s*$/, '')` — the regex
matches exactly when, after removing trailing whitespace, the string ends in
three backticks; the match (those backticks plus the trailing whitespace) is
removed, otherwise the string is unchanged. -/
def stripTrailingFence (s : Str) : Str :=
  if strEnds "```".data (dropWhileEnd Char.isWhitespace s) then
    dropRightN 3 (dropWhileEnd Char.isWhitespace s)
  else s

/-- The cleanup applied to a successful Ollama response content
(`ocr.js` lines 100-102): `trim()`, then strip a leading code fence, then
strip a trailing code fence. -/
def cleanupText (content : Str) : Str :=
  stripTrailingFence (stripLeadingFence (jsTrim content))

/-- Environment of one `performOcrOnImage` call: the outcome of each external
operation. `readResult` is `fs.readFile` (error = thrown exception);
`chatResult` is `ollama.chat` (`error` = thrown exception — network failure,
timeout, decoding —, `ok c` = a response whose `message.content` is `c`,
with `none` standing for an absent `response.message.content`). -/
structure OcrEnv where
  readResult : Except Str (List Nat)
  chatResult : Except Str (Option Str)
deriving DecidableEq

/-- The body of the `try` block of `performOcrOnImage` (`ocr.js` lines
83-108): an `Except.error` is a JavaScript exception propagating out of the
block. `response?.message?.content` is truthy exactly when the content is
present and non-empty; then the cleaned text is returned, else `null`. -/
def ocrBody (env : OcrEnv) : Except Str (Option Str) :=
  match env.readResult with
  | .error e => .error e
  | .ok _imageBuffer =>
    match env.chatResult with
    | .error e => .error e
    | .ok content =>
      match content with
      | some c => if c = [] then .ok none else .ok (some (cleanupText c))
      | none => .ok none

/-- `ocr.js` lines 80-114: the `try`/`catch` wrapper — any exception raised
by the body is caught and converted to `null` (`ocr.js` lines 109-113). -/
def performOcrOnImage (env : OcrEnv) : Option Str :=
  match ocrBody env with
  | .ok r => r
  | .error _ => none

example : performOcrOnImage ⟨.ok [1], .ok (some "  hi\n".data)⟩ = some "hi".data := by decide

example :
    performOcrOnImage ⟨.ok [1], .ok (some "```markdown\nHello\n```".data)⟩ =
      some "Hello\n".data := by decide

example : performOcrOnImage ⟨.error "ENOENT".data, .ok (some "x".data)⟩ = none := rfl

example :
    performOcrOnImage ⟨.ok [1], .ok (some "``` ```hello\n```".data)⟩ =
      some "```hello\n".data := by decide

/-! ## Markdown assembly (`generateMarkdownFile`, `ocr.js` lines 118-168)

The per-run service behaviour is a map from filename to the `OcrEnv` of that
file's `performOcrOnImage` call. -/

/-- Initial content written by `fs.writeFile` (`ocr.js` line 134). -/
def mdHeader : Str := "# Transcription Results\n\n".data

/-- `ocr.js` lines 139-146: the chunk appended for one page. -/
def outputChunk (filename : Str) : Option Str → Str
  | some transcribedText => transcribedText ++ "\n\n".data
  | none => "\n\n[OCR Warning/Error for ".data ++ filename ++ "]\n\n".data

/-- The `for` loop of `ocr.js` lines 137-148: `content` is the current file
content, each iteration appends (`fs.appendFile`) the chunk for one page. -/
def mdLoop (service : Str → OcrEnv) (content : Str) : List Str → Str
  | [] => content
  | filename :: rest =>
    mdLoop service (content ++ outputChunk filename (performOcrOnImage (service filename))) rest

/-- `ocr.js` lines 118-168: on a listing error the function returns before
any write (`none` = no artifact); otherwise the final file content is the
header followed by the appended chunks. -/
def generateMarkdownArtifact (service : Str → OcrEnv)
    (listing : Except ListErr (List Str)) : Option Str :=
  match listing with
  | .error _ => none
  | .ok screenshotFiles => some (mdLoop service mdHeader screenshotFiles)

/-! ## PDF assembly (`generateSearchablePdf`, `pdf.js`, both variants) -/

/-- A pdf-lib image embedded from a PNG: `pdfImage.scale(1.0)` yields the
raster width/height of the source PNG. -/
structure PdfImage where
  width : Nat
  height : Nat
deriving DecidableEq

/-- One invisible text layer drawn by `page.drawText`. -/
structure TextLayer where
  text : Str
  x : Nat
  y : Nat
  size : Nat
  renderingMode : Nat
deriving DecidableEq

/-- One PDF page: created with `pdfDoc.addPage([w, h])`, the source image
drawn over the whole page, and an optional invisible text layer. -/
structure Page where
  width : Nat
  height : Nat
  textLayer : Option TextLayer
deriving DecidableEq

/-- pdf-lib's `PDFRenderingMode.Invisible` (text rendering mode 3). -/
def invisibleRenderingMode : Nat := 3

/-- Environment of one PDF-generation run: `ocrService f` is the `OcrEnv`
of the `performOcrOnImage` call for file `f`; `image f` is the combined
outcome of `fs.readFile` + `pdfDoc.embedPng` for file `f` (`error` = either
of them threw). -/
structure PdfEnv where
  ocrService : Str → OcrEnv
  image : Str → Except Str PdfImage

/-- JS truthiness test `ocrText && ocrText.trim().length > 0`
(`pdf.js` line 64 / line 59 of the incremental variant). -/
def hasTextLayer : Option Str → Bool
  | none => false
  | some t => !(t == []) && decide (0 < (jsTrim t).length)

namespace Pdf

/-- One loop iteration's page, batch-save variant (`part_002` lines 42-78):
OCR (never throws), page sized to the image dimensions, visible image, and —
when the OCR text is truthy and non-blank — an invisible Helvetica layer at
`x=5, y=5, size=6` with `PDFRenderingMode.Invisible`. -/
def mkPage (env : PdfEnv) (filename : Str) (img : PdfImage) : Page :=
  let ocrText := performOcrOnImage (env.ocrService filename)
  { width := img.width
    height := img.height
    textLayer :=
      if hasTextLayer ocrText then
        some { text := ocrText.getD [], x := 5, y := 5, size := 6,
               renderingMode := invisibleRenderingMode }
      else none }

/-- The `for` loop of `part_002` lines 36-85: each file is processed inside a
`try`/`catch`; when reading/embedding the image throws, no page is added and
the loop continues with the next file. -/
def pagesOf (env : PdfEnv) : List Str → List Page
  | [] => []
  | filename :: rest =>
    match env.image filename with
    | .error _ => pagesOf env rest
    | .ok img => mkPage env filename img :: pagesOf env rest

/-- `part_002` lines 17-101: listing failure returns with no artifact;
`pagesAdded === 0` aborts the save (no artifact); otherwise the saved
document holds the pages in loop order. -/
def generateSearchablePdf (env : PdfEnv) (listing : Except ListErr (List Str)) :
    Option (List Page) :=
  match listing with
  | .error _ => none
  | .ok screenshotFiles =>
    let pages := pagesOf env screenshotFiles
    if pages.length = 0 then none else some pages

end Pdf

namespace PdfInc

/-- One loop iteration's page, incremental-save variant (`part_003` lines
43-71): same structure, TimesRoman layer at `x=10, y=10, size=8`,
`renderingMode: 3`. -/
def mkPage (env : PdfEnv) (filename : Str) (img : PdfImage) : Page :=
  let ocrText := performOcrOnImage (env.ocrService filename)
  { width := img.width
    height := img.height
    textLayer :=
      if hasTextLayer ocrText then
        some { text := ocrText.getD [], x := 10, y := 10, size := 8,
               renderingMode := 3 }
      else none }

/-- The `for` loop of `part_003` lines 39-82, with the same skip-and-continue
`catch` as the batch variant. -/
def pagesOf (env : PdfEnv) : List Str → List Page
  | [] => []
  | filename :: rest =>
    match env.image filename with
    | .error _ => pagesOf env rest
    | .ok img => mkPage env filename img :: pagesOf env rest

/-- `part_003` lines 20-92: the artifact is the last incremental save, which
holds every page added so far; when no page was ever added no save happened,
so no artifact exists. -/
def generateSearchablePdf (env : PdfEnv) (listing : Except ListErr (List Str)) :
    Option (List Page) :=
  match listing with
  | .error _ => none
  | .ok screenshotFiles =>
    let pages := pagesOf env screenshotFiles
    if pages.length = 0 then none else some pages

end PdfInc

/-! ## Capture-script startup (`move-shot.js` lines 8-31) -/

/-- Leading digits of `s` as a number, `none` when there is no digit
(the `NaN` outcome of `parseInt`). -/
def digitsOf (s : Str) : Option Nat :=
  let ds := s.takeWhile Char.isDigit
  if ds = [] then none else some (digitsVal ds)

/-- `parseInt(s, 10)`: skip leading whitespace, optional sign, then the
maximal run of decimal digits; `none` models `NaN` (no digit found). -/
def parseIntJs (s : Str) : Option Int :=
  let t := s.dropWhile Char.isWhitespace
  match t with
  | '-' :: rest => (digitsOf rest).map (fun n => -(n : Int))
  | '+' :: rest => (digitsOf rest).map (fun n => (n : Int))
  | _ => (digitsOf t).map (fun n => (n : Int))

/-- `move-shot.js` line 10: `parseInt(process.env.DELAY_MS, 10) || 1000`.
`none` models `NaN` (env var unset or unparsable); both `NaN` and `0` are
falsy, so `||` replaces them with `1000` — the result is never `NaN`. -/
def delayMsOf (delayEnv : Option Str) : Option Int :=
  match delayEnv.bind parseIntJs with
  | none => some 1000
  | some n => if n = 0 then some 1000 else some n

/-- Outcome of the top-level startup code of `move-shot.js`: `exit1` is
`process.exit(1)`, which terminates the process before the main async
function (session-directory creation, browser launch, any file write) runs;
`proceed` carries the validated configuration into the main function. -/
inductive StartupResult where
  | exit1
  | proceed (targetUrl : Str) (delayMs : Int)
deriving DecidableEq

/-- `move-shot.js` lines 8-31: `if (!targetUrl)` exits 1 (`undefined` and the
empty string are falsy); then `if (isNaN(delayMs) || delayMs < 0)` exits 1. -/
def startupValidate (targetUrl delayEnv : Option Str) : StartupResult :=
  match targetUrl with
  | none => .exit1
  | some url =>
    if url = [] then .exit1
    else
      let delayMs := delayMsOf delayEnv
      if delayMs.isNone ∨ delayMs.getD 0 < 0 then .exit1
      else .proceed url (delayMs.getD 0)

/-- External actions the capture script performs, in program order, as a
function of the startup outcome: `process.exit(1)` performs none; otherwise
the main function creates the session directory, launches the browser,
navigates, and later creates screenshot files. -/
def moveShotActions (targetUrl delayEnv : Option Str) : List String :=
  match startupValidate targetUrl delayEnv with
  | .exit1 => []
  | .proceed _ _ =>
    ["ensureSessionDir", "launchBrowser", "newPage", "navigate",
     "ensureOutputDir", "captureLoop"]

example : startupValidate none none = .exit1 := rfl

example : startupValidate (some "http://e.com".data) (some "-5".data) = .exit1 := by decide

example :
    startupValidate (some "http://e.com".data) (some "abc".data) =
      .proceed "http://e.com".data 1000 := by decide

example :
    startupValidate (some "http://e.com".data) (some "0".data) =
      .proceed "http://e.com".data 1000 := by decide

/-! ## Concrete environments used in scenario and witness statements -/

/-- Service behaviour of the spec's three-page scenario: page 1 transcribes
to `"Hello"`, page 2's service call throws, page 3 transcribes to
`"World"`. -/
def scenarioService (f : Str) : OcrEnv :=
  if f = "1.png".data then ⟨.ok [1], .ok (some "Hello".data)⟩
  else if f = "3.png".data then ⟨.ok [1], .ok (some "World".data)⟩
  else ⟨.ok [1], .error "service timeout".data⟩

/-- The three-page scenario listing. -/
def scenarioFiles : List Str := ["1.png".data, "2.png".data, "3.png".data]

/-- A two-page PDF environment in which every image decodes: page 1 is
100×200 with OCR text `"Hello"`, page 2 is 30×40 with a failed OCR call. -/
def pdfEnvOk : PdfEnv where
  ocrService f :=
    if f = "1.png".data then ⟨.ok [1], .ok (some "Hello".data)⟩
    else ⟨.ok [1], .error "service timeout".data⟩
  image f :=
    if f = "1.png".data then .ok ⟨100, 200⟩ else .ok ⟨30, 40⟩

/-- A PDF environment in which the image of `"2.png"` fails to read/embed. -/
def pdfEnvBad : PdfEnv where
  ocrService _ := ⟨.ok [1], .ok (some "Hello".data)⟩
  image f :=
    if f = "2.png".data then .error "EACCES".data else .ok ⟨100, 200⟩

/-- An OCR environment whose response content is enclosed in doubled code
fences. -/
def fencedEnv : OcrEnv :=
  ⟨.ok [1], .ok (some "``` ```hello\n```".data)⟩

/-- The first page the batch generator produces in `pdfEnvOk`. -/
def c6Page1 : Page :=
  ⟨100, 200, some ⟨"Hello".data, 5, 5, 6, invisibleRenderingMode⟩⟩

/-- The page list the batch generator produces in `pdfEnvOk` over
`["1.png", "2.png"]`. -/
def c6Pages : List Page :=
  [c6Page1, ⟨30, 40, none⟩]

/-! ## Helper lemmas -/

theorem head?_append_some {u v : Str} {c : Char} (h : u.head? = some c) :
    (u ++ v).head? = some c := by
  cases u <;> simp_all

theorem head?_of_take {l : Str} {n : Nat} {c : Char} (h : (l.take n).head? = some c) :
    l.head? = some c := by
  cases l <;> cases n <;> simp_all

theorem head?_dropWhile_not (p : Char → Bool) (l : Str) (c : Char)
    (h : (l.dropWhile p).head? = some c) : p c = false := by
  induction l with
  | nil => simp at h
  | cons a l ih =>
    rw [List.dropWhile_cons] at h
    by_cases hpa : p a
    · exact ih (by simpa [hpa] using h)
    · simp [hpa] at h
      rw [h] at hpa
      simpa using hpa

theorem dropWhileEnd_eq_append (p : Char → Bool) (l : Str) :
    ∃ u, l = dropWhileEnd p l ++ u := by
  refine ⟨(l.reverse.takeWhile p).reverse, ?_⟩
  unfold dropWhileEnd
  rw [← List.reverse_append, List.takeWhile_append_dropWhile, List.reverse_reverse]

theorem head?_of_dropWhileEnd {p : Char → Bool} {l : Str} {c : Char}
    (h : (dropWhileEnd p l).head? = some c) : l.head? = some c := by
  obtain ⟨u, hu⟩ := dropWhileEnd_eq_append p l
  rw [hu]
  exact head?_append_some h

theorem cleanupText_head_not_ws (s : Str) (c : Char)
    (h : (cleanupText s).head? = some c) : c.isWhitespace = false := by
  have hX : ∀ d : Char, (stripLeadingFence (jsTrim s)).head? = some d →
      d.isWhitespace = false := by
    intro d hd
    unfold stripLeadingFence at hd
    split at hd
    · exact head?_dropWhile_not _ _ _ hd
    · unfold jsTrim at hd
      exact head?_dropWhile_not _ _ _ (head?_of_dropWhileEnd hd)
  unfold cleanupText stripTrailingFence at h
  split at h
  · exact hX c (head?_of_dropWhileEnd (head?_of_take h))
  · exact hX c h

theorem mdLoop_eq_append_join (service : Str → OcrEnv) (content : Str)
    (files : List Str) :
    mdLoop service content files =
      content ++
        (files.map fun f => outputChunk f (performOcrOnImage (service f))).flatten := by
  induction files generalizing content with
  | nil => simp [mdLoop]
  | cons f rest ih => simp [mdLoop, ih, List.append_assoc]

theorem hasTextLayer_some_iff (t : Str) :
    hasTextLayer (some t) = true ↔ jsTrim t ≠ [] := by
  unfold hasTextLayer
  constructor
  · intro h
    simp at h
    intro hnil
    rw [hnil] at h
    simp at h
  · intro h
    have ht : t ≠ [] := by
      intro hnil
      exact h (by rw [hnil]; rfl)
    simp [ht]
    cases hj : jsTrim t with
    | nil => exact absurd hj h
    | cons a u => simp

theorem Pdf.mem_pagesOf_batch {env : PdfEnv} {files : List Str} {page : Page}
    (h : page ∈ Pdf.pagesOf env files) :
    ∃ f ∈ files, ∃ img, env.image f = .ok img ∧ page = Pdf.mkPage env f img := by
  induction files with
  | nil => simp [Pdf.pagesOf] at h
  | cons f rest ih =>
    rw [Pdf.pagesOf] at h
    cases himg : env.image f with
    | error e =>
      rw [himg] at h
      obtain ⟨g, hg, img, h1, h2⟩ := ih h
      exact ⟨g, List.mem_cons_of_mem f hg, img, h1, h2⟩
    | ok img =>
      rw [himg] at h
      rcases List.mem_cons.mp h with h1 | h1
      · exact ⟨f, List.mem_cons_self f rest, img, himg, h1⟩
      · obtain ⟨g, hg, img', h1, h2⟩ := ih h1
        exact ⟨g, List.mem_cons_of_mem f hg, img', h1, h2⟩

theorem PdfInc.mem_pagesOf_inc {env : PdfEnv} {files : List Str} {page : Page}
    (h : page ∈ PdfInc.pagesOf env files) :
    ∃ f ∈ files, ∃ img, env.image f = .ok img ∧ page = PdfInc.mkPage env f img := by
  induction files with
  | nil => simp [PdfInc.pagesOf] at h
  | cons f rest ih =>
    rw [PdfInc.pagesOf] at h
    cases himg : env.image f with
    | error e =>
      rw [himg] at h
      obtain ⟨g, hg, img, h1, h2⟩ := ih h
      exact ⟨g, List.mem_cons_of_mem f hg, img, h1, h2⟩
    | ok img =>
      rw [himg] at h
      rcases List.mem_cons.mp h with h1 | h1
      · exact ⟨f, List.mem_cons_self f rest, img, himg, h1⟩
      · obtain ⟨g, hg, img', h1, h2⟩ := ih h1
        exact ⟨g, List.mem_cons_of_mem f hg, img', h1, h2⟩

/-- The relation of claim C4: one page per listed file, sized to that file's
raster image. -/
def pageMatches (env : PdfEnv) (f : Str) (p : Page) : Prop :=
  ∃ img, env.image f = .ok img ∧ p.width = img.width ∧ p.height = img.height

theorem Pdf.pagesOf_forall₂_batch (env : PdfEnv) (files : List Str)
    (hok : ∀ f ∈ files, ∃ img, env.image f = .ok img) :
    List.Forall₂ (pageMatches env) files (Pdf.pagesOf env files) := by
  induction files with
  | nil => exact .nil
  | cons f rest ih =>
    obtain ⟨img, himg⟩ := hok f (List.mem_cons_self f rest)
    rw [Pdf.pagesOf, himg]
    exact .cons ⟨img, himg, rfl, rfl⟩ (ih fun g hg => hok g (List.mem_cons_of_mem f hg))

theorem PdfInc.pagesOf_forall₂_inc (env : PdfEnv) (files : List Str)
    (hok : ∀ f ∈ files, ∃ img, env.image f = .ok img) :
    List.Forall₂ (pageMatches env) files (PdfInc.pagesOf env files) := by
  induction files with
  | nil => exact .nil
  | cons f rest ih =>
    obtain ⟨img, himg⟩ := hok f (List.mem_cons_self f rest)
    rw [PdfInc.pagesOf, himg]
    exact .cons ⟨img, himg, rfl, rfl⟩ (ih fun g hg => hok g (List.mem_cons_of_mem f hg))

/-- Whether reading + embedding the image of file `f` succeeds. -/
def imageOk (env : PdfEnv) (f : Str) : Bool :=
  match env.image f with
  | .ok _ => true
  | .error _ => false

theorem Pdf.length_pagesOf_batch (env : PdfEnv) (files : List Str) :
    (Pdf.pagesOf env files).length = (files.filter (imageOk env)).length := by
  induction files with
  | nil => rfl
  | cons f rest ih =>
    rw [Pdf.pagesOf]
    cases himg : env.image f with
    | error e => simp [List.filter_cons, imageOk, himg, ih]
    | ok img => simp [List.filter_cons, imageOk, himg, ih]

theorem PdfInc.length_pagesOf_inc (env : PdfEnv) (files : List Str) :
    (PdfInc.pagesOf env files).length = (files.filter (imageOk env)).length := by
  induction files with
  | nil => rfl
  | cons f rest ih =>
    rw [PdfInc.pagesOf]
    cases himg : env.image f with
    | error e => simp [List.filter_cons, imageOk, himg, ih]
    | ok img => simp [List.filter_cons, imageOk, himg, ih]

theorem performOcr_some_cleanup {env : OcrEnv} {t : Str}
    (h : performOcrOnImage env = some t) :
    ∃ c, env.chatResult = .ok (some c) ∧ c ≠ [] ∧ t = cleanupText c := by
  obtain ⟨r, ch⟩ := env
  unfold performOcrOnImage ocrBody at h
  cases r with
  | error e => simp at h
  | ok b =>
    cases ch with
    | error e => simp at h
    | ok content =>
      cases content with
      | none => simp at h
      | some c =>
        by_cases hc : c = [] <;> simp [hc] at h
        exact ⟨c, rfl, hc, h.symm⟩

/-! ## Claim theorems -/

/-- C1: for every directory listing whose set of qualifying (`.png`) files is
non-empty, `getScreenshotFiles` returns exactly those N files, ordered
ascending by the leading integer of each filename (independently of lexical
order, since the output is a permutation of the qualifying files that is
sorted by `leadingNum`), and a filename without a leading integer has sort
key `0`. -/
theorem c1_listing_sorted_by_leading_num (allFiles : List Str)
    (h : allFiles.filter isPng ≠ []) :
    ∃ out, getScreenshotFiles (.ok allFiles) = .ok out ∧
      out.length = (allFiles.filter isPng).length ∧
      out.Perm (allFiles.filter isPng) ∧
      out.Pairwise (fun a b => leadingNum a ≤ leadingNum b) ∧
      ∀ s : Str, s.takeWhile Char.isDigit = [] → leadingNum s = 0 := by
  have hred : getScreenshotFiles (.ok allFiles) =
      if (List.insertionSort leRel (allFiles.filter isPng)).length = 0
      then .error .empty
      else .ok (List.insertionSort leRel (allFiles.filter isPng)) := rfl
  refine ⟨List.insertionSort leRel (allFiles.filter isPng), ?_, ?_, ?_, ?_, ?_⟩
  · rw [hred, if_neg]
    rw [List.length_insertionSort]
    intro hlen
    exact h (List.length_eq_zero.mp hlen)
  · exact List.length_insertionSort leRel _
  · exact List.perm_insertionSort leRel _
  · exact List.sorted_insertionSort leRel _
  · intro s hs
    unfold leadingNum
    rw [hs]
    rfl

/-- C1 witness: the spec's own example `"2.png", "10.png", "1.png"`. -/
theorem c1_listing_sorted_by_leading_num_witness :
    (["2.png".data, "10.png".data, "1.png".data].filter isPng ≠ []) ∧
    (∃ out,
      getScreenshotFiles (.ok ["2.png".data, "10.png".data, "1.png".data]) = .ok out ∧
      out.length = (["2.png".data, "10.png".data, "1.png".data].filter isPng).length ∧
      out.Perm (["2.png".data, "10.png".data, "1.png".data].filter isPng) ∧
      out.Pairwise (fun a b => leadingNum a ≤ leadingNum b) ∧
      ∀ s : Str, s.takeWhile Char.isDigit = [] → leadingNum s = 0) :=
  ⟨by decide, c1_listing_sorted_by_leading_num _ (by decide)⟩

/-- C5: `getScreenshotFiles` fails with the NotFound condition exactly when
the directory read fails with `ENOENT`, and with the Empty condition exactly
when the directory read succeeds but no qualifying `.png` file is present;
either error means no listing is returned. -/
theorem c5_listing_error_conditions (readdir : Except FsError (List Str)) :
    (getScreenshotFiles readdir = .error .notFound ↔ readdir = .error .enoent) ∧
    (getScreenshotFiles readdir = .error .empty ↔
      ∃ allFiles, readdir = .ok allFiles ∧ allFiles.filter isPng = []) := by
  cases readdir with
  | error e => cases e <;> simp [getScreenshotFiles]
  | ok allFiles =>
    have hred : getScreenshotFiles (.ok allFiles) =
        if (List.insertionSort leRel (allFiles.filter isPng)).length = 0
        then .error .empty
        else .ok (List.insertionSort leRel (allFiles.filter isPng)) := rfl
    rw [hred]
    by_cases hlen : (List.insertionSort leRel (allFiles.filter isPng)).length = 0
    · rw [if_pos hlen]
      rw [List.length_insertionSort] at hlen
      have hnil := List.length_eq_zero.mp hlen
      refine ⟨⟨fun h => by simp at h, fun h => by simp at h⟩,
              ⟨fun _ => ⟨allFiles, rfl, hnil⟩, fun _ => rfl⟩⟩
    · rw [if_neg hlen]
      rw [List.length_insertionSort] at hlen
      constructor
      · simp
      · constructor
        · simp
        · rintro ⟨fs, hfs, hempty⟩
          rw [Except.ok.injEq] at hfs
          rw [hfs, hempty] at hlen
          exact absurd rfl hlen

/-- C2: `performOcrOnImage` is a total function into `Option` — the catch-all
handler converts every exception of the body (unreadable image file, service
error such as network failure, timeout or decoding) to `null` — and it
returns cleaned text exactly when the image was read and the service answered
with (truthy) content; in every other case it returns `null`. -/
theorem c2_transcriber_null_on_error (env : OcrEnv) (t : Str) :
    performOcrOnImage env = some t ↔
      ∃ b c, env.readResult = .ok b ∧ env.chatResult = .ok (some c) ∧
        c ≠ [] ∧ t = cleanupText c := by
  obtain ⟨r, ch⟩ := env
  unfold performOcrOnImage ocrBody
  cases r with
  | error e => simp
  | ok b =>
    cases ch with
    | error e => simp
    | ok content =>
      cases content with
      | none => simp
      | some c =>
        by_cases hc : c = [] <;> simp [hc, eq_comm]

/-- C3: in the markdown assembly every listed page contributes exactly one
chunk, in listing order: successful pages contribute their text followed by
the blank-line separator, failed (`null`) pages contribute the visible
`[OCR Warning/Error for <filename>]` marker and processing continues; the
three-page scenario with results `"Hello"`, `null`, `"World"` yields
`"Hello\n\n"`, then the marker naming `2.png`, then `"World\n\n"`, in that
order. -/
theorem c3_markdown_page_chunks :
    (∀ service content files,
      mdLoop service content files =
        content ++
          (files.map fun f => outputChunk f (performOcrOnImage (service f))).flatten) ∧
    (∀ f t, outputChunk f (some t) = t ++ "\n\n".data) ∧
    (∀ f, outputChunk f none = "\n\n[OCR Warning/Error for ".data ++ f ++ "]\n\n".data) ∧
    generateMarkdownArtifact scenarioService (.ok scenarioFiles) =
      some (mdHeader ++ "Hello\n\n".data ++
        "\n\n[OCR Warning/Error for 2.png]\n\n".data ++ "World\n\n".data) := by
  refine ⟨mdLoop_eq_append_join, fun f t => rfl, fun f => rfl, ?_⟩
  decide

/-- C9: markdown assembly is deterministic in the Transcriber results — two
runs over the same ordered listing whose per-page `performOcrOnImage`
outcomes agree produce identical artifacts. -/
theorem c9_markdown_deterministic (s1 s2 : Str → OcrEnv) (files : List Str)
    (h : ∀ f ∈ files, performOcrOnImage (s1 f) = performOcrOnImage (s2 f)) :
    generateMarkdownArtifact s1 (.ok files) = generateMarkdownArtifact s2 (.ok files) := by
  show some (mdLoop s1 mdHeader files) = some (mdLoop s2 mdHeader files)
  rw [mdLoop_eq_append_join, mdLoop_eq_append_join]
  have hmap : files.map (fun f => outputChunk f (performOcrOnImage (s1 f))) =
      files.map (fun f => outputChunk f (performOcrOnImage (s2 f))) :=
    List.map_congr_left fun f hf => by rw [h f hf]
  rw [hmap]

/-- C9 witness: the scenario run repeated against itself. -/
theorem c9_markdown_deterministic_witness :
    (∀ f ∈ scenarioFiles,
      performOcrOnImage (scenarioService f) = performOcrOnImage (scenarioService f)) ∧
    generateMarkdownArtifact scenarioService (.ok scenarioFiles) =
      generateMarkdownArtifact scenarioService (.ok scenarioFiles) :=
  ⟨fun _ _ => rfl,
   c9_markdown_deterministic scenarioService scenarioService scenarioFiles fun _ _ => rfl⟩

/-- C4: when every listed image reads and embeds successfully, both PDF
generators put exactly one page per listed file into the document — N input
pages give N document pages, in listing order, each sized to its source
image's raster dimensions, with no page skipped on OCR failure — and an
empty listing aborts with no artifact. -/
theorem c4_pdf_page_count_and_dimensions (env : PdfEnv) (files : List Str)
    (hok : ∀ f ∈ files, ∃ img, env.image f = .ok img) :
    (files = [] →
      Pdf.generateSearchablePdf env (.ok files) = none ∧
      PdfInc.generateSearchablePdf env (.ok files) = none) ∧
    (files ≠ [] → ∃ pages pagesInc,
      Pdf.generateSearchablePdf env (.ok files) = some pages ∧
      PdfInc.generateSearchablePdf env (.ok files) = some pagesInc ∧
      pages.length = files.length ∧ pagesInc.length = files.length ∧
      List.Forall₂ (pageMatches env) files pages ∧
      List.Forall₂ (pageMatches env) files pagesInc) := by
  constructor
  · rintro rfl
    exact ⟨rfl, rfl⟩
  · intro hne
    have h₁ := Pdf.pagesOf_forall₂_batch env files hok
    have h₂ := PdfInc.pagesOf_forall₂_inc env files hok
    have hl₁ : (Pdf.pagesOf env files).length = files.length :=
      (List.Forall₂.length_eq h₁).symm
    have hl₂ : (PdfInc.pagesOf env files).length = files.length :=
      (List.Forall₂.length_eq h₂).symm
    have hnz : files.length ≠ 0 := fun h0 => hne (List.length_eq_zero.mp h0)
    refine ⟨Pdf.pagesOf env files, PdfInc.pagesOf env files, ?_, ?_, hl₁, hl₂, h₁, h₂⟩
    · show (if (Pdf.pagesOf env files).length = 0 then none
            else some (Pdf.pagesOf env files)) = _
      rw [if_neg (by rw [hl₁]; exact hnz)]
    · show (if (PdfInc.pagesOf env files).length = 0 then none
            else some (PdfInc.pagesOf env files)) = _
      rw [if_neg (by rw [hl₂]; exact hnz)]

/-- C4 witness: the two-page environment in which both images decode. -/
theorem c4_pdf_page_count_and_dimensions_witness :
    (∀ f ∈ ["1.png".data, "2.png".data], ∃ img, pdfEnvOk.image f = .ok img) ∧
    ((["1.png".data, "2.png".data] = ([] : List Str) →
      Pdf.generateSearchablePdf pdfEnvOk (.ok ["1.png".data, "2.png".data]) = none ∧
      PdfInc.generateSearchablePdf pdfEnvOk (.ok ["1.png".data, "2.png".data]) = none) ∧
    (["1.png".data, "2.png".data] ≠ ([] : List Str) → ∃ pages pagesInc,
      Pdf.generateSearchablePdf pdfEnvOk (.ok ["1.png".data, "2.png".data]) = some pages ∧
      PdfInc.generateSearchablePdf pdfEnvOk (.ok ["1.png".data, "2.png".data]) = some pagesInc ∧
      pages.length = ["1.png".data, "2.png".data].length ∧
      pagesInc.length = ["1.png".data, "2.png".data].length ∧
      List.Forall₂ (pageMatches pdfEnvOk) ["1.png".data, "2.png".data] pages ∧
      List.Forall₂ (pageMatches pdfEnvOk) ["1.png".data, "2.png".data] pagesInc)) := by
  have hok : ∀ f ∈ ["1.png".data, "2.png".data], ∃ img, pdfEnvOk.image f = .ok img := by
    intro f hf
    rcases List.mem_cons.mp hf with h | h
    · exact ⟨⟨100, 200⟩, by rw [h]; rfl⟩
    · have h2 : f = "2.png".data := by simpa using h
      exact ⟨⟨30, 40⟩, by rw [h2]; rfl⟩
  exact ⟨hok, c4_pdf_page_count_and_dimensions pdfEnvOk _ hok⟩

/-- C6: every page of either generated document corresponds to a listed file
whose image decoded, and carries an invisible text layer exactly when that
file's Transcriber result was non-null and non-blank after trimming: the
layer holds the full text at the fixed small size and fixed near-origin
position of the variant (size 6 at (5,5) for the batch variant, size 8 at
(10,10) for the incremental one), rendered with pdf-lib's invisible text
rendering mode (3); a null or blank result leaves the page with no text
layer. -/
theorem c6_invisible_text_layer :
    (∀ env files pages page,
      Pdf.generateSearchablePdf env (.ok files) = some pages → page ∈ pages →
      ∃ f ∈ files,
        ((∃ t, performOcrOnImage (env.ocrService f) = some t ∧ jsTrim t ≠ [] ∧
            page.textLayer = some ⟨t, 5, 5, 6, invisibleRenderingMode⟩) ∨
         ((performOcrOnImage (env.ocrService f) = none ∨
           ∃ t, performOcrOnImage (env.ocrService f) = some t ∧ jsTrim t = []) ∧
          page.textLayer = none))) ∧
    (∀ env files pages page,
      PdfInc.generateSearchablePdf env (.ok files) = some pages → page ∈ pages →
      ∃ f ∈ files,
        ((∃ t, performOcrOnImage (env.ocrService f) = some t ∧ jsTrim t ≠ [] ∧
            page.textLayer = some ⟨t, 10, 10, 8, 3⟩) ∨
         ((performOcrOnImage (env.ocrService f) = none ∨
           ∃ t, performOcrOnImage (env.ocrService f) = some t ∧ jsTrim t = []) ∧
          page.textLayer = none))) := by
  constructor
  · intro env files pages page hgen hmem
    have hred : Pdf.generateSearchablePdf env (.ok files) =
        if (Pdf.pagesOf env files).length = 0 then none
        else some (Pdf.pagesOf env files) := rfl
    rw [hred] at hgen
    split at hgen
    · exact absurd hgen (by simp)
    · rw [Option.some.injEq] at hgen
      subst hgen
      obtain ⟨f, hf, img, himg, hpage⟩ := Pdf.mem_pagesOf_batch hmem
      refine ⟨f, hf, ?_⟩
      subst hpage
      unfold Pdf.mkPage
      cases hocr : performOcrOnImage (env.ocrService f) with
      | none => exact Or.inr ⟨Or.inl rfl, rfl⟩
      | some t =>
        by_cases hj : jsTrim t = []
        · have hfalse : hasTextLayer (some t) = false :=
            Bool.eq_false_iff.mpr fun h => (hasTextLayer_some_iff t).mp h hj
          refine Or.inr (And.intro (Or.inr (Exists.intro t (And.intro rfl hj))) ?_)
          simp [hfalse]
        · have htrue : hasTextLayer (some t) = true := (hasTextLayer_some_iff t).mpr hj
          refine Or.inl (Exists.intro t (And.intro rfl (And.intro hj ?_)))
          simp [htrue]
  · intro env files pages page hgen hmem
    have hred : PdfInc.generateSearchablePdf env (.ok files) =
        if (PdfInc.pagesOf env files).length = 0 then none
        else some (PdfInc.pagesOf env files) := rfl
    rw [hred] at hgen
    split at hgen
    · exact absurd hgen (by simp)
    · rw [Option.some.injEq] at hgen
      subst hgen
      obtain ⟨f, hf, img, himg, hpage⟩ := PdfInc.mem_pagesOf_inc hmem
      refine ⟨f, hf, ?_⟩
      subst hpage
      unfold PdfInc.mkPage
      cases hocr : performOcrOnImage (env.ocrService f) with
      | none => exact Or.inr ⟨Or.inl rfl, rfl⟩
      | some t =>
        by_cases hj : jsTrim t = []
        · have hfalse : hasTextLayer (some t) = false :=
            Bool.eq_false_iff.mpr fun h => (hasTextLayer_some_iff t).mp h hj
          refine Or.inr (And.intro (Or.inr (Exists.intro t (And.intro rfl hj))) ?_)
          simp [hfalse]
        · have htrue : hasTextLayer (some t) = true := (hasTextLayer_some_iff t).mpr hj
          refine Or.inl (Exists.intro t (And.intro rfl (And.intro hj ?_)))
          simp [htrue]

/-- C6 witness: in `pdfEnvOk` the generated first page carries the invisible
`"Hello"` layer. -/
theorem c6_invisible_text_layer_witness :
    (Pdf.generateSearchablePdf pdfEnvOk (.ok ["1.png".data, "2.png".data]) = some c6Pages ∧
     c6Page1 ∈ c6Pages) ∧
    (∃ f ∈ ["1.png".data, "2.png".data],
      ((∃ t, performOcrOnImage (pdfEnvOk.ocrService f) = some t ∧ jsTrim t ≠ [] ∧
          c6Page1.textLayer = some ⟨t, 5, 5, 6, invisibleRenderingMode⟩) ∨
       ((performOcrOnImage (pdfEnvOk.ocrService f) = none ∨
         ∃ t, performOcrOnImage (pdfEnvOk.ocrService f) = some t ∧ jsTrim t = []) ∧
        c6Page1.textLayer = none))) :=
  ⟨⟨by decide, by decide⟩,
   c6_invisible_text_layer.1 pdfEnvOk ["1.png".data, "2.png".data] c6Pages c6Page1
     (by decide) (by decide)⟩

/-- C10: a page whose image fails to read or embed is skipped — both
generators produce exactly one page per file whose image decodes, none for
the others, and processing continues past the failure, so the document can
end up with fewer pages than the listing (concretely: three listed files
with an unreadable `2.png` yield a two-page document). -/
theorem c10_unreadable_image_skipped (env : PdfEnv) (files : List Str) :
    ((Pdf.pagesOf env files).length = (files.filter (imageOk env)).length ∧
     (PdfInc.pagesOf env files).length = (files.filter (imageOk env)).length ∧
     (Pdf.pagesOf env files).length ≤ files.length ∧
     (PdfInc.pagesOf env files).length ≤ files.length) ∧
    Pdf.generateSearchablePdf pdfEnvBad
        (.ok ["1.png".data, "2.png".data, "3.png".data]) =
      some [⟨100, 200, some ⟨"Hello".data, 5, 5, 6, invisibleRenderingMode⟩⟩,
            ⟨100, 200, some ⟨"Hello".data, 5, 5, 6, invisibleRenderingMode⟩⟩] := by
  refine ⟨⟨Pdf.length_pagesOf_batch env files, PdfInc.length_pagesOf_inc env files, ?_, ?_⟩, ?_⟩
  · rw [Pdf.length_pagesOf_batch]
    exact List.length_filter_le _ _
  · rw [PdfInc.length_pagesOf_inc]
    exact List.length_filter_le _ _
  · decide

/-- C7 counterexample: the service content enclosed in doubled code fences —
after the single-pass cleanup the returned text still begins with a
code-fence marker and ends with a whitespace character, contradicting the
claim. -/
theorem c7_cleanup_counterexample :
    performOcrOnImage fencedEnv = some "```hello\n".data ∧
    strStarts "```".data "```hello\n".data = true ∧
    "```hello\n".data.getLast? = some '\n' ∧
    Char.isWhitespace '\n' = true := by decide

/-- C7 (amended): the cleanup strips one leading code-fence head and one
trailing fence marker and trims; the returned text never begins with
whitespace, but a result can still begin with a fence marker or end with
whitespace when the content nests fences. -/
theorem c7_cleanup_no_leading_whitespace (env : OcrEnv) (t : Str) (c : Char)
    (hsome : performOcrOnImage env = some t) (hc : t.head? = some c) :
    c.isWhitespace = false := by
  obtain ⟨cc, _hch, _hne, hclean⟩ := performOcr_some_cleanup hsome
  exact cleanupText_head_not_ws cc c (hclean ▸ hc)

/-- C7 witness: content `"  hi"` cleans to `"hi"`, whose head is not
whitespace. -/
theorem c7_cleanup_no_leading_whitespace_witness :
    (performOcrOnImage ⟨.ok [1], .ok (some "  hi".data)⟩ = some "hi".data ∧
     "hi".data.head? = some 'h') ∧
    Char.isWhitespace 'h' = false :=
  ⟨⟨by decide, rfl⟩,
   c7_cleanup_no_leading_whitespace ⟨.ok [1], .ok (some "  hi".data)⟩ "hi".data 'h'
     (by decide) rfl⟩

/-- C8 counterexample: with `DELAY_MS="abc"` — an invalid delay, not a
number — `parseInt` yields `NaN`, `|| 1000` silently substitutes the
default, and the script proceeds to launch the browser instead of exiting
nonzero. -/
theorem c8_startup_counterexample :
    parseIntJs "abc".data = none ∧
    startupValidate (some "http://example.com".data) (some "abc".data) =
      .proceed "http://example.com".data 1000 ∧
    moveShotActions (some "http://example.com".data) (some "abc".data) ≠ [] := by decide

/-- C8 (amended): the capture script exits nonzero before opening any
external resource when the target location is missing or empty, or when the
configured delay parses to a negative number; a delay that does not parse as
a number falls back to the default 1000 and startup proceeds. -/
theorem c8_startup_validation_amended (targetUrl delayEnv : Option Str)
    (h : targetUrl = none ∨ targetUrl = some [] ∨
      ∃ s n, delayEnv = some s ∧ parseIntJs s = some n ∧ n < 0) :
    startupValidate targetUrl delayEnv = .exit1 ∧
    moveShotActions targetUrl delayEnv = [] := by
  have hval : startupValidate targetUrl delayEnv = .exit1 := by
    rcases h with h | h | ⟨s, n, hs, hparse, hneg⟩
    · rw [h]
      rfl
    · rw [h]
      rfl
    · subst hs
      cases targetUrl with
      | none => rfl
      | some url =>
        have hd : delayMsOf (some s) = some n := by
          unfold delayMsOf
          have hb : (some s).bind parseIntJs = some n := hparse
          rw [hb]
          show (if n = 0 then some 1000 else some n) = some n
          rw [if_neg (by omega)]
        show (if url = [] then StartupResult.exit1
          else if (delayMsOf (some s)).isNone ∨ (delayMsOf (some s)).getD 0 < 0
            then StartupResult.exit1
            else .proceed url ((delayMsOf (some s)).getD 0)) = .exit1
        by_cases hu : url = []
        · rw [if_pos hu]
        · rw [if_neg hu, if_pos]
          right
          rw [hd]
          simpa using hneg
  refine ⟨hval, ?_⟩
  unfold moveShotActions
  rw [hval]

/-- C8 witness: `DELAY_MS="-5"` parses negative, so startup exits with no
external action. -/
theorem c8_startup_validation_amended_witness :
    ((some "http://example.com".data : Option Str) = none ∨
     (some "http://example.com".data : Option Str) = some [] ∨
     ∃ s n, (some "-5".data : Option Str) = some s ∧ parseIntJs s = some n ∧ n < 0) ∧
    (startupValidate (some "http://example.com".data) (some "-5".data) = .exit1 ∧
     moveShotActions (some "http://example.com".data) (some "-5".data) = []) :=
  ⟨Or.inr (Or.inr ⟨"-5".data, -5, rfl, by decide, by decide⟩),
   c8_startup_validation_amended _ _
     (Or.inr (Or.inr ⟨"-5".data, -5, rfl, by decide, by decide⟩))⟩
